import Mathlib

/-!
Verification of the Dutch Bay 150MW wind-farm financial model.

Shallow embedding of the Python sources over exact rational arithmetic:
`dutch_bay_financial_model.py` (cash-flow engine, debt scheduler, model
assembler), `dutchbay_finmodel_enhanced.py` (IRR precondition checks),
`optimization_enhanced.py` (capital-structure optimizer wrapper), and
`montecarlo.py` (Monte Carlo parameter sampler).

The module-level constants of `dutch_bay_financial_model.py` (its lines
13-38, documented as overridable via CSV) are gathered into a `Config`
record; `defaultConfig` holds the values written in the source.  Machine
floats are embedded as `ℚ` (every operation performed by the code is a
rational operation), and NumPy's NaN sentinel for an undefined DSCR is
embedded as `Option ℚ`.
-/

/-- The module-level input parameters of `dutch_bay_financial_model.py`
(lines 13-38).  The source comment marks them as overridable via CSV, so
the embedded functions take the parameter record as an argument. -/
structure Config where
  project_years : ℕ
  nameplate_mw : ℚ
  cf_p50 : ℚ
  yearly_degradation : ℚ
  hours_per_year : ℚ
  tariff_lkr_kwh : ℚ
  fx_initial : ℚ
  fx_depr : ℚ
  opex_usd_mwh : ℚ
  opex_esc_usd : ℚ
  opex_esc_lkr : ℚ
  opex_split_usd : ℚ
  opex_split_lkr : ℚ
  capex_total : ℚ
  econ_life : ℚ
  sscl_rate : ℚ
  tax_rate : ℚ
  usd_debt_init : ℚ
  lkr_debt_init : ℚ
  usd_debt_rate : ℚ
  lkr_debt_rate : ℚ
  usd_debt_tenor : ℕ
  lkr_debt_tenor : ℕ
  grace_period : ℤ
  principal_pct_1_4 : ℚ
  principal_pct_5_on : ℚ

/-- The default parameter values written in `dutch_bay_financial_model.py`
lines 13-38. -/
def defaultConfig : Config where
  project_years := 20
  nameplate_mw := 150
  cf_p50 := 2/5
  yearly_degradation := 6/1000
  hours_per_year := 8760
  tariff_lkr_kwh := 2036/100
  fx_initial := 300
  fx_depr := 3/100
  opex_usd_mwh := 683/100
  opex_esc_usd := 2/100
  opex_esc_lkr := 5/100
  opex_split_usd := 3/10
  opex_split_lkr := 7/10
  capex_total := 14638/100
  econ_life := 20
  sscl_rate := 25/1000
  tax_rate := 30/100
  usd_debt_init := 5636/100
  lkr_debt_init := 13833
  usd_debt_rate := 7/100
  lkr_debt_rate := 7/100
  usd_debt_tenor := 15
  lkr_debt_tenor := 15
  grace_period := 1
  principal_pct_1_4 := 80/100
  principal_pct_5_on := 20/100

/-- `compute_generation` (lines 44-53): annual gross generation in MWh. -/
def compute_generation (c : Config) (year : ℕ) : ℚ :=
  c.nameplate_mw * c.hours_per_year * c.cf_p50 * (1 - c.yearly_degradation) ^ (year - 1)

/-- `compute_fx` (lines 56-65): FX rate for a given year with depreciation. -/
def compute_fx (c : Config) (year : ℕ) : ℚ :=
  c.fx_initial * (1 + c.fx_depr) ^ (year - 1)

/-- `compute_tariff_usd` (lines 68-78): USD-equivalent tariff per MWh. -/
def compute_tariff_usd (c : Config) (year : ℕ) : ℚ :=
  c.tariff_lkr_kwh / compute_fx c year * 1000

/-- `compute_revenue` (lines 81-92): annual revenue in USD millions. -/
def compute_revenue (c : Config) (year : ℕ) : ℚ :=
  compute_generation c year * compute_tariff_usd c year / 1000000

/-- `compute_sscl` (lines 95-104): Social Service Contribution Levy. -/
def compute_sscl (c : Config) (year : ℕ) : ℚ :=
  compute_revenue c year * c.sscl_rate

/-- `compute_opex` (lines 107-126): annual OPEX with dual-currency
escalation. -/
def compute_opex (c : Config) (year : ℕ) : ℚ :=
  let gen := compute_generation c year
  let fx := compute_fx c year
  let usd_portion := c.opex_usd_mwh * c.opex_split_usd * (1 + c.opex_esc_usd) ^ (year - 1)
  let lkr_portion_base := c.opex_usd_mwh * c.opex_split_lkr * (1 + c.opex_esc_lkr) ^ (year - 1)
  let lkr_portion_usd := lkr_portion_base / (fx / c.fx_initial)
  gen * (usd_portion + lkr_portion_usd) / 1000000

/-- `compute_depreciation` (lines 129-135): annual straight-line
depreciation, `CAPEX_TOTAL / ECON_LIFE`, with no dependence on the year. -/
def compute_depreciation (c : Config) : ℚ :=
  c.capex_total / c.econ_life

/-- The per-year EBITDA-to-operating-cash-flow chain computed inside the
loop of `compute_debt_schedule` (lines 161-167): `ebitda = revenue - sscl
- opex`, `ebit = ebitda - da`, `tax = max(0, ebit*TAX_RATE)`, `op_cf =
ebit - tax + da`. -/
def sched_op_cf (c : Config) (year : ℕ) : ℚ :=
  let ebitda := compute_revenue c year - compute_sscl c year - compute_opex c year
  let da := compute_depreciation c
  let ebit := ebitda - da
  let tax := max 0 (ebit * c.tax_rate)
  ebit - tax + da

/-- The mutable loop state of `compute_debt_schedule`: the two outstanding
balances `usd_bal` and `lkr_bal` (lines 145-146). -/
structure DebtState where
  usd_bal : ℚ
  lkr_bal : ℚ

/-- One year's emitted row of `compute_debt_schedule` (the five history
lists appended at lines 184-188). -/
structure YearDebt where
  usd_prin : ℚ
  usd_int : ℚ
  lkr_prin : ℚ
  lkr_int : ℚ
  lkr_ds : ℚ

/-- The balances before year 1 of the schedule (lines 145-146). -/
def initialDebtState (c : Config) : DebtState :=
  { usd_bal := c.usd_debt_init, lkr_bal := c.lkr_debt_init }

/-- One iteration of the `for year in range(1, PROJECT_YEARS + 1)` loop of
`compute_debt_schedule` (lines 154-188): given the year and the balances
carried in from the previous year, produce that year's debt row and the
updated balances.  The branch structure of the principal policies (lines
169-182) is transcribed literally; in particular the computed USD
principal `min(usd_bal, pct * op_cf_avail)` is NOT floored at zero. -/
def debtStep (c : Config) (year : ℕ) (s : DebtState) : YearDebt × DebtState :=
  let usd_int := s.usd_bal * c.usd_debt_rate
  let lkr_int := s.lkr_bal * c.lkr_debt_rate
  let fx := compute_fx c year
  let lkr_int_usd := lkr_int / fx
  let op_cf_avail := sched_op_cf c year - usd_int - lkr_int_usd
  let usd_prin :=
    if year = 1 ∧ c.grace_period = 1 then 0
    else if 2 ≤ year ∧ year ≤ 4 then min s.usd_bal (c.principal_pct_1_4 * op_cf_avail)
    else if 4 < year then min s.usd_bal (c.principal_pct_5_on * op_cf_avail)
    else 0
  let usd_bal' := max 0 (s.usd_bal - usd_prin)
  let lkr_prin :=
    if year ≤ c.lkr_debt_tenor then
      s.lkr_bal / (((c.lkr_debt_tenor : ℤ) - (year : ℤ) + 1 : ℤ) : ℚ)
    else 0
  let lkr_bal' := max 0 (s.lkr_bal - lkr_prin)
  let lkr_ds := lkr_int + lkr_prin
  ({ usd_prin := usd_prin, usd_int := usd_int,
     lkr_prin := lkr_prin, lkr_int := lkr_int, lkr_ds := lkr_ds },
   { usd_bal := usd_bal', lkr_bal := lkr_bal' })

/-- The balances after `y` iterations of the scheduling loop. -/
def debtStateAfter (c : Config) : ℕ → DebtState
  | 0 => initialDebtState c
  | y + 1 => (debtStep c (y + 1) (debtStateAfter c y)).2

/-- The debt row emitted for year `y` (1-based, as in the source). -/
def debtYear (c : Config) (y : ℕ) : YearDebt :=
  (debtStep c y (debtStateAfter c (y - 1))).1

/-- `compute_debt_schedule` (lines 138-193): the five parallel history
arrays, here as one list of rows for years `1 .. PROJECT_YEARS`. -/
def compute_debt_schedule (c : Config) : List YearDebt :=
  (List.range c.project_years).map (fun i => debtYear c (i + 1))

/-! ## Model assembler (`build_full_model`, lines 196-253)

`build_full_model` builds the per-year ledger as numpy arrays indexed by
year; here each column is a function of the year.  The ledger rows are
years `1 .. PROJECT_YEARS`. -/

/-- The `da` column (line 213): `compute_depreciation() * np.ones(PROJECT_YEARS)`,
one constant entry per year of the horizon, with no beyond-economic-life
handling. -/
def model_da_list (c : Config) : List ℚ :=
  List.replicate c.project_years (compute_depreciation c)

/-- The `ebitda` column (line 214): `revenue - sscl - opex`. -/
def model_ebitda (c : Config) (y : ℕ) : ℚ :=
  compute_revenue c y - compute_sscl c y - compute_opex c y

/-- The `ebit` column (line 215): `ebitda - da`. -/
def model_ebit (c : Config) (y : ℕ) : ℚ :=
  model_ebitda c y - compute_depreciation c

/-- The `tax` column (line 216): `np.maximum(0, ebit * TAX_RATE)`. -/
def model_tax (c : Config) (y : ℕ) : ℚ :=
  max 0 (model_ebit c y * c.tax_rate)

/-- The `op_cf` column (line 217): `ebit - tax + da`. -/
def model_op_cf (c : Config) (y : ℕ) : ℚ :=
  model_ebit c y - model_tax c y + compute_depreciation c

/-- The `lkr_int_usd` column (line 223): `lkr_int / fx`. -/
def lkr_int_usd (c : Config) (y : ℕ) : ℚ :=
  (debtYear c y).lkr_int / compute_fx c y

/-- The `lkr_prin_usd` column (line 224): `lkr_prin / fx`. -/
def lkr_prin_usd (c : Config) (y : ℕ) : ℚ :=
  (debtYear c y).lkr_prin / compute_fx c y

/-- The `total_ds` column (line 226):
`usd_int + usd_prin + lkr_int_usd + lkr_prin_usd`. -/
def total_ds (c : Config) (y : ℕ) : ℚ :=
  (debtYear c y).usd_int + (debtYear c y).usd_prin + lkr_int_usd c y + lkr_prin_usd c y

/-- The `dscr` column (line 227):
`np.where(total_ds > 1e-6, op_cf / total_ds, np.nan)`.  The NaN sentinel
of the undefined branch is embedded as `none`. -/
def dscr (c : Config) (y : ℕ) : Option ℚ :=
  if 1/1000000 < total_ds c y then some (model_op_cf c y / total_ds c y) else none

/-- The `eq_cf` column (line 228): `op_cf - total_ds`. -/
def eq_cf (c : Config) (y : ℕ) : ℚ :=
  model_op_cf c y - total_ds c y

/-! ## Robust IRR layer (`dutchbay_finmodel_enhanced.py`)

`calculate_irr_robust` (lines 27-55) first performs three precondition
checks (lines 28-33) before any solver is invoked; each check returns a
Python dict with keys irr, status, message and method, where irr and
method are None and status is ERROR.  The subsequent scipy solver calls
are external; only the precondition phase is embedded. -/

/-- The `status` values appearing in the result dicts of
`calculate_irr_robust`. -/
inductive IRRStatus where
  | ERROR
  | CONVERGED
  | FAILED
deriving DecidableEq

/-- The shape of the result dict of `calculate_irr_robust` (keys `irr`,
`status`, `message`, `method`); `None` values are embedded as `none`. -/
structure IRRResult where
  irr : Option ℚ
  status : IRRStatus
  message : String
  method : Option String
deriving DecidableEq

/-- The precondition phase of `calculate_irr_robust` (lines 28-33), in the
source's order: fewer than 2 cash flows, then `np.all(cash_flows >= 0)`,
then `np.all(cash_flows <= 0)`.  `some r` means the function returns `r`
before attempting any solve; `none` means control reaches the solver
phase (line 34 onward). -/
def calculate_irr_robust_precheck (cash_flows : List ℚ) : Option IRRResult :=
  if cash_flows.length < 2 then
    some { irr := none, status := .ERROR,
           message := "Need at least 2 cash flows", method := none }
  else if ∀ cf ∈ cash_flows, 0 ≤ cf then
    some { irr := none, status := .ERROR,
           message := "No negative cash flows - IRR undefined", method := none }
  else if ∀ cf ∈ cash_flows, cf ≤ 0 then
    some { irr := none, status := .ERROR,
           message := "No positive cash flows - IRR undefined", method := none }
  else
    none

/-! ## Capital-structure optimizer (`optimization_enhanced.py`)

`optimize_capital_structure` wraps two external oracles: the financial
model `build_financial_model` of the (absent) module `dutchbay_model_v12`,
and `scipy.optimize.minimize`.  Both are taken as explicit arguments: an
evaluation that can raise is embedded as `Except String`, with `.error`
standing for a Python exception.  What is embedded is exactly the
orchestration written in `optimization_enhanced.py`: the penalty wrappers
`objective_func` / `constraint_min_irr` / `constraint_min_dscr` (lines
36-95) and the try/except result assembly (lines 101-162). -/

/-- The metrics dict returned by the external `build_financial_model`
(keys read by `optimization_enhanced.py`). -/
structure ModelMetrics where
  equity_irr : ℚ
  project_irr : ℚ
  npv_12pct : ℚ
  min_dscr : ℚ

/-- The fields of the scipy `minimize` result that the source reads:
`res.x`, `res.success`, `res.message`. -/
structure MinimizeResult where
  x : ℚ × ℚ × ℚ
  success : Bool
  message : String

/-- `objective_func` (lines 36-59): evaluate the model at the trial point
and negate the requested metric; any exception yields the penalty `1e10`. -/
def objective_func (objective : String)
    (runModel : ℚ × ℚ × ℚ → Except String ModelMetrics) (x : ℚ × ℚ × ℚ) : ℚ :=
  match runModel x with
  | .ok m =>
      if objective = "equity_irr" then -m.equity_irr
      else if objective = "project_irr" then -m.project_irr
      else if objective = "npv" then -m.npv_12pct
      else -m.equity_irr
  | .error _ => 10000000000

/-- `constraint_min_irr` (lines 61-77): `equity_irr - min_irr`, or the
infeasible sentinel `-1e10` on any exception. -/
def constraint_min_irr (runModel : ℚ × ℚ × ℚ → Except String ModelMetrics)
    (min_irr : ℚ) (x : ℚ × ℚ × ℚ) : ℚ :=
  match runModel x with
  | .ok m => m.equity_irr - min_irr
  | .error _ => -10000000000

/-- `constraint_min_dscr` (lines 79-95): `min_dscr - threshold`, or the
infeasible sentinel `-1e10` on any exception. -/
def constraint_min_dscr (runModel : ℚ × ℚ × ℚ → Except String ModelMetrics)
    (min_dscr : ℚ) (x : ℚ × ℚ × ℚ) : ℚ :=
  match runModel x with
  | .ok m => m.min_dscr - min_dscr
  | .error _ => -10000000000

/-- The result dict of `optimize_capital_structure`.  The success path
(lines 132-147) includes the key `constraint_violations`; the exception
path (lines 150-162) omits it, which is embedded as
`constraint_violations = none`. -/
structure OptResult where
  optimal_debt_ratio : Option ℚ
  optimal_usd_pct : Option ℚ
  optimal_dfi_pct : Option ℚ
  optimized_equity_irr : Option ℚ
  optimized_project_irr : Option ℚ
  optimized_npv : Option ℚ
  optimized_min_dscr : Option ℚ
  convergence : Bool
  message : String
  constraint_violations : Option (ℚ × ℚ)

/-- The dict built by the `except` branch of `optimize_capital_structure`
(lines 150-162). -/
def optFailureResult (e : String) : OptResult where
  optimal_debt_ratio := none
  optimal_usd_pct := none
  optimal_dfi_pct := none
  optimized_equity_irr := none
  optimized_project_irr := none
  optimized_npv := none
  optimized_min_dscr := none
  convergence := false
  message := "Optimization failed with error: " ++ e
  constraint_violations := none

/-- The try/except result assembly of `optimize_capital_structure` (lines
101-162).  `minimizeOutcome` is the outcome of the scipy `minimize` call
(`.error` if it raises); on success the final point `res.x` is re-evaluated
once more through `runModel` (lines 111-122, also inside the `try`), the
post-hoc violations are computed (lines 124-125) and clamped at zero in the
returned dict (lines 143-146); if any of this raises, the `except` branch
dict (without `constraint_violations`) is returned. -/
def optimize_capital_structure
    (runModel : ℚ × ℚ × ℚ → Except String ModelMetrics)
    (minimizeOutcome : Except String MinimizeResult)
    (min_irr min_dscr : ℚ) : OptResult :=
  match minimizeOutcome with
  | .error e => optFailureResult e
  | .ok res =>
    match runModel res.x with
    | .error e => optFailureResult e
    | .ok m =>
      let irr_violation := min_irr - m.equity_irr
      let dscr_violation := min_dscr - m.min_dscr
      { optimal_debt_ratio := some res.x.1
        optimal_usd_pct := some res.x.2.1
        optimal_dfi_pct := some res.x.2.2
        optimized_equity_irr := some m.equity_irr
        optimized_project_irr := some m.project_irr
        optimized_npv := some m.npv_12pct
        optimized_min_dscr := some m.min_dscr
        convergence := res.success
        message := res.message
        constraint_violations := some (max 0 irr_violation, max 0 dscr_violation) }

/-! ## Monte Carlo sampler (`montecarlo.py`)

`generate_mc_parameters` (lines 11-22) creates its own generator
`np.random.default_rng(seed)` from its `seed` argument and draws the five
uniform columns from it, in the order written in the source; it touches no
other state.  The numpy `Generator` is external library code; it is
embedded as a deterministic stream derived from the seed word (a linear
congruential generator standing in for PCG64).  The property the code
relies on, and the only one used below, is that a given seed fully
determines the stream, while `seed=None` falls back to ambient OS entropy
(modelled by the `entropy` argument). -/

/-- Deterministic stand-in for the numpy bit generator: one 64-bit LCG
step. -/
def lcgStep (s : ℕ) : ℕ :=
  (6364136223846793005 * s + 1442695040888963407) % (2 ^ 64)

/-- `np.random.default_rng(seed)`: a seed word determines the generator
completely; `None` seeds from ambient entropy. -/
def default_rng (entropy : ℕ) (seed : Option ℕ) : ℕ :=
  match seed with
  | some s => s % (2 ^ 64)
  | none => entropy % (2 ^ 64)

/-- The generator state before producing draw number `i` (0-based). -/
def rngState (init : ℕ) : ℕ → ℕ
  | 0 => lcgStep init
  | i + 1 => lcgStep (rngState init i)

/-- The `i`-th unit-interval draw of the generator. -/
def rngUnit (init : ℕ) (i : ℕ) : ℚ :=
  (rngState init i : ℚ) / (2 ^ 64)

/-- `rng.uniform(lo, hi)` applied to the `i`-th draw. -/
def rngUniform (init : ℕ) (lo hi : ℚ) (i : ℕ) : ℚ :=
  lo + (hi - lo) * rngUnit init i

/-- The dict returned by `generate_mc_parameters` (lines 16-22): five
sampled columns of length `n_scenarios`. -/
structure MCParams where
  usd_rate : List ℚ
  lkr_rate : List ℚ
  debt_ratio : List ℚ
  fx_depr : List ℚ
  capacity_factor : List ℚ

/-- `generate_mc_parameters` (lines 11-22): one generator is created from
the seed and the five uniform columns are drawn from it in source order
(`usd_rate`, `lkr_rate`, `debt_ratio`, `fx_depr`, `capacity_factor`),
each column consuming `n_scenarios` consecutive draws. -/
def generate_mc_parameters (entropy : ℕ) (n_scenarios : ℕ) (seed : Option ℕ) :
    MCParams :=
  let g := default_rng entropy seed
  { usd_rate := (List.range n_scenarios).map (rngUniform g (65/1000) (9/100))
    lkr_rate := (List.range n_scenarios).map
      (fun i => rngUniform g (75/1000) (9/100) (n_scenarios + i))
    debt_ratio := (List.range n_scenarios).map
      (fun i => rngUniform g (1/2) (4/5) (2 * n_scenarios + i))
    fx_depr := (List.range n_scenarios).map
      (fun i => rngUniform g (3/100) (5/100) (3 * n_scenarios + i))
    capacity_factor := (List.range n_scenarios).map
      (fun i => rngUniform g (38/100) (42/100) (4 * n_scenarios + i)) }

/-- The sampled-parameter part of the rows emitted by `run_monte_carlo`
(lines 33-67): for each iteration `i` the row records entry `i` of each
of the five sampled columns usd_rate, lkr_rate, debt_ratio, fx_depr and
capacity_factor (the model-result fields of the row come from the
external `build_financial_model` and are not sampled). -/
def run_monte_carlo_sampled (entropy : ℕ) (iterations : ℕ) (seed : Option ℕ) :
    List (ℚ × ℚ × ℚ × ℚ × ℚ) :=
  let scenarios := generate_mc_parameters entropy iterations seed
  (List.range iterations).map (fun i =>
    (scenarios.usd_rate.getD i 0, scenarios.lkr_rate.getD i 0,
     scenarios.debt_ratio.getD i 0, scenarios.fx_depr.getD i 0,
     scenarios.capacity_factor.getD i 0))

/-! ## Claim-specific inputs -/

/-- `defaultConfig` with the grace-period parameter overridden. -/
def graceCfg (g : ℤ) : Config :=
  { defaultConfig with grace_period := g }

/-- A CSV-overridable configuration with a very low capacity factor (1%):
year-2 available cash flow after interest is negative. -/
def lowCFConfig : Config :=
  { defaultConfig with cf_p50 := 1/100 }

/-- A configuration whose project horizon (21 years) exceeds the 20-year
economic life. -/
def horizon21Config : Config :=
  { defaultConfig with project_years := 21 }

/-- A configuration with no debt at all: every debt-service entry is zero. -/
def zeroDebtConfig : Config :=
  { defaultConfig with usd_debt_init := 0, lkr_debt_init := 0 }

/-- A concrete stand-in for the external `build_financial_model`: raises on
`fail = true`, returns fixed metrics otherwise. -/
def runModelProbe (fail : Bool) : ℚ × ℚ × ℚ → Except String ModelMetrics :=
  fun _ =>
    if fail then .error "ZeroDivisionError"
    else .ok { equity_irr := 1/5, project_irr := 18/100, npv_12pct := 30, min_dscr := 3/2 }

/-! ## Helper lemmas -/

/-- In the year-1 iteration every branch of the USD principal policy yields
zero, whatever the grace period: the grace branch returns 0 and the two
banded branches require `year ≥ 2`. -/
theorem debtStep_year_one_usd_prin (c : Config) (s : DebtState) :
    (debtStep c 1 s).1.usd_prin = 0 := by
  by_cases h : c.grace_period = 1
  · simp [debtStep, h]
  · simp [debtStep, h]

/-- The year-1 loop iteration does not depend on the grace period beyond
the branch that already yields zero principal, so the balances after year
1 agree between `graceCfg g` and the default configuration. -/
theorem debtStateAfter_one_graceCfg (g : ℤ) :
    debtStateAfter (graceCfg g) 1 = debtStateAfter defaultConfig 1 := by
  by_cases h : g = 1
  · subst h; rfl
  · simp [debtStateAfter, debtStep, initialDebtState, graceCfg, defaultConfig, h]

/-- The year-2 debt row is the same for any grace period, because the
grace branch of the principal policy requires `year == 1`. -/
theorem debtYear_two_graceCfg (g : ℤ) :
    debtYear (graceCfg g) 2 = debtYear defaultConfig 2 := by
  have h1 : debtYear (graceCfg g) 2
      = (debtStep (graceCfg g) 2 (debtStateAfter (graceCfg g) 1)).1 := rfl
  have h2 : debtYear defaultConfig 2
      = (debtStep defaultConfig 2 (debtStateAfter defaultConfig 1)).1 := rfl
  rw [h1, h2, debtStateAfter_one_graceCfg g]
  rfl

/-- Concrete evaluation of the default schedule: the year-2 USD principal
is strictly positive. -/
theorem debtYear_default_two_usd_prin_pos :
    0 < (debtYear defaultConfig 2).usd_prin := by
  norm_num [debtYear, debtStep, debtStateAfter, initialDebtState, sched_op_cf,
    compute_revenue, compute_sscl, compute_opex, compute_generation, compute_fx,
    compute_tariff_usd, compute_depreciation, defaultConfig, min_def, max_def]

/-! ## Claims -/

/-- C10: in `compute_debt_schedule`, the USD facility's year-1 principal is
zero for every value of the grace-period parameter (indeed for every
configuration), because the year-banded branches assign a nonzero
principal only from year 2 onward and the final `else` yields zero. -/
theorem usd_year1_principal_zero_any_grace (c : Config) :
    (debtYear c 1).usd_prin = 0 :=
  debtStep_year_one_usd_prin c (debtStateAfter c 0)

/-- C5: with a configured grace period of at least 1 year, the USD
facility's year-1 principal is zero and its year-2 principal is strictly
positive. -/
theorem grace_year1_zero_year2_positive (g : ℤ) (_hg : 1 ≤ g) :
    (debtYear (graceCfg g) 1).usd_prin = 0 ∧
    0 < (debtYear (graceCfg g) 2).usd_prin := by
  refine ⟨debtStep_year_one_usd_prin (graceCfg g) _, ?_⟩
  rw [debtYear_two_graceCfg g]
  exact debtYear_default_two_usd_prin_pos

/-- C5 witness: the theorem applied at the concrete grace period 1. -/
theorem grace_year1_zero_year2_positive_witness :
    (1:ℤ) ≤ 1 ∧
    ((debtYear (graceCfg 1) 1).usd_prin = 0 ∧
     0 < (debtYear (graceCfg 1) 2).usd_prin) :=
  ⟨le_refl 1, grace_year1_zero_year2_positive 1 (le_refl 1)⟩

/-- C9: the EBITDA-to-operating-cash-flow chain computed inside
`compute_debt_schedule` (lines 161-167) coincides for every configuration
and year with the `Op_CF` column computed independently by
`build_full_model` (lines 214-217): the duplicated chains are equivalent. -/
theorem sched_op_cf_eq_model_op_cf (c : Config) (y : ℕ) :
    sched_op_cf c y = model_op_cf c y := rfl

/-- C3: for every year of the ledger, the equity cash flow equals the
operating cash flow minus the total debt service, the latter being the sum
over both facilities of interest plus principal with the LKR legs
converted to USD at that year's FX rate. -/
theorem eq_cf_eq_op_cf_sub_total_ds (c : Config) (y : ℕ) :
    eq_cf c y = model_op_cf c y -
      ((debtYear c y).usd_int + (debtYear c y).usd_prin +
       (debtYear c y).lkr_int / compute_fx c y +
       (debtYear c y).lkr_prin / compute_fx c y) := rfl

/-- C6: for every configuration and year, the DSCR column equals the
operating cash flow divided by the total debt service when the total debt
service exceeds the epsilon `1e-6`, and is otherwise the undefined
sentinel (`none`, numpy's NaN); whenever it is defined the divisor is
strictly positive, so the quotient is a finite rational and no division
fault can occur. -/
theorem dscr_spec (c : Config) (y : ℕ) :
    (1/1000000 < total_ds c y →
      dscr c y = some (model_op_cf c y / total_ds c y) ∧ 0 < total_ds c y) ∧
    (¬ 1/1000000 < total_ds c y → dscr c y = none) ∧
    (∀ q, dscr c y = some q → 0 < total_ds c y) := by
  refine ⟨fun h => ⟨?_, lt_trans (by norm_num) h⟩, fun h => ?_, fun q hq => ?_⟩
  · unfold dscr
    rw [if_pos h]
  · unfold dscr
    rw [if_neg h]
  · by_cases h : 1/1000000 < total_ds c y
    · exact lt_trans (by norm_num) h
    · unfold dscr at hq
      rw [if_neg h] at hq
      exact absurd hq (by simp)

/-- C6 witness: at the default configuration in year 1 the debt service
exceeds the epsilon and the DSCR is the quotient; with both facilities at
zero principal the debt service is zero and the DSCR is undefined. -/
theorem dscr_spec_witness :
    (1/1000000 < total_ds defaultConfig 1 ∧
     dscr defaultConfig 1 = some (model_op_cf defaultConfig 1 / total_ds defaultConfig 1) ∧
     0 < total_ds defaultConfig 1) ∧
    (¬ 1/1000000 < total_ds zeroDebtConfig 1 ∧ dscr zeroDebtConfig 1 = none) := by
  have h1 : (1:ℚ)/1000000 < total_ds defaultConfig 1 := by
    norm_num [total_ds, lkr_int_usd, lkr_prin_usd, debtYear, debtStep, debtStateAfter,
      initialDebtState, compute_fx, defaultConfig]
  have h2 : ¬ (1:ℚ)/1000000 < total_ds zeroDebtConfig 1 := by
    norm_num [total_ds, lkr_int_usd, lkr_prin_usd, debtYear, debtStep, debtStateAfter,
      initialDebtState, compute_fx, zeroDebtConfig, defaultConfig]
  exact ⟨⟨h1, ((dscr_spec defaultConfig 1).1 h1).1, ((dscr_spec defaultConfig 1).1 h1).2⟩,
         ⟨h2, (dscr_spec zeroDebtConfig 1).2.1 h2⟩⟩

/-- C4: `calculate_irr_robust` detects ill-posed input before attempting
any solve and returns a structured result with status ERROR: fewer than 2
cash flows, an all-nonnegative sequence and an all-nonpositive sequence
each yield an early ERROR result with `irr = None`, with three pairwise
distinct messages separating the too-few-points case from the
no-negative-flows case from the no-positive-flows case (the checks are
applied in the source's order, so an all-zero sequence reports the
no-negative-flows message). -/
theorem irr_precheck_spec (cash_flows : List ℚ) :
    (cash_flows.length < 2 →
      calculate_irr_robust_precheck cash_flows =
        some ⟨none, .ERROR, "Need at least 2 cash flows", none⟩) ∧
    (¬ cash_flows.length < 2 → (∀ cf ∈ cash_flows, 0 ≤ cf) →
      calculate_irr_robust_precheck cash_flows =
        some ⟨none, .ERROR, "No negative cash flows - IRR undefined", none⟩) ∧
    (¬ cash_flows.length < 2 → ¬ (∀ cf ∈ cash_flows, 0 ≤ cf) →
        (∀ cf ∈ cash_flows, cf ≤ 0) →
      calculate_irr_robust_precheck cash_flows =
        some ⟨none, .ERROR, "No positive cash flows - IRR undefined", none⟩) ∧
    (¬ cash_flows.length < 2 → (∀ cf ∈ cash_flows, cf ≤ 0) →
      ∃ r, calculate_irr_robust_precheck cash_flows = some r ∧
        r.status = .ERROR ∧ r.irr = none) ∧
    (("Need at least 2 cash flows" ≠ "No negative cash flows - IRR undefined") ∧
     ("Need at least 2 cash flows" ≠ "No positive cash flows - IRR undefined") ∧
     ("No negative cash flows - IRR undefined" ≠ "No positive cash flows - IRR undefined")) := by
  refine ⟨fun h => ?_, fun h h0 => ?_, fun h h0 h1 => ?_, fun h h1 => ?_,
    by decide, by decide, by decide⟩
  · unfold calculate_irr_robust_precheck
    rw [if_pos h]
  · unfold calculate_irr_robust_precheck
    rw [if_neg h, if_pos h0]
  · unfold calculate_irr_robust_precheck
    rw [if_neg h, if_neg h0, if_pos h1]
  · by_cases h0 : ∀ cf ∈ cash_flows, 0 ≤ cf
    · refine ⟨⟨none, .ERROR, "No negative cash flows - IRR undefined", none⟩, ?_, rfl, rfl⟩
      unfold calculate_irr_robust_precheck
      rw [if_neg h, if_pos h0]
    · refine ⟨⟨none, .ERROR, "No positive cash flows - IRR undefined", none⟩, ?_, rfl, rfl⟩
      unfold calculate_irr_robust_precheck
      rw [if_neg h, if_neg h0, if_pos h1]

/-- C4 witness: the three guard branches observed on the concrete inputs
`[5]`, `[10, 10, 10]` and `[-1, -2]`. -/
theorem irr_precheck_spec_witness :
    calculate_irr_robust_precheck [(5:ℚ)] =
      some ⟨none, .ERROR, "Need at least 2 cash flows", none⟩ ∧
    calculate_irr_robust_precheck [(10:ℚ), 10, 10] =
      some ⟨none, .ERROR, "No negative cash flows - IRR undefined", none⟩ ∧
    calculate_irr_robust_precheck [(-1:ℚ), -2] =
      some ⟨none, .ERROR, "No positive cash flows - IRR undefined", none⟩ := by
  refine ⟨(irr_precheck_spec [(5:ℚ)]).1 (by norm_num),
    (irr_precheck_spec [(10:ℚ), 10, 10]).2.1 (by norm_num) ?_,
    (irr_precheck_spec [(-1:ℚ), -2]).2.2.1 (by norm_num) ?_ ?_⟩
  · intro cf hcf
    fin_cases hcf <;> norm_num
  · intro hall
    have := hall (-1) (by simp)
    norm_num at this
  · intro cf hcf
    fin_cases hcf <;> norm_num

/-- C8: for every fixed seed and every iteration count, two invocations of
the Monte Carlo sampler — even under different ambient entropy, which is
consulted only when no seed is given — produce identical sampled values
for each of the five perturbed fields in every draw, and identical
sampled-parameter tuples in every row emitted by `run_monte_carlo`. -/
theorem mc_sampler_deterministic_for_fixed_seed (e1 e2 n s : ℕ) :
    (generate_mc_parameters e1 n (some s)).usd_rate
      = (generate_mc_parameters e2 n (some s)).usd_rate ∧
    (generate_mc_parameters e1 n (some s)).lkr_rate
      = (generate_mc_parameters e2 n (some s)).lkr_rate ∧
    (generate_mc_parameters e1 n (some s)).debt_ratio
      = (generate_mc_parameters e2 n (some s)).debt_ratio ∧
    (generate_mc_parameters e1 n (some s)).fx_depr
      = (generate_mc_parameters e2 n (some s)).fx_depr ∧
    (generate_mc_parameters e1 n (some s)).capacity_factor
      = (generate_mc_parameters e2 n (some s)).capacity_factor ∧
    run_monte_carlo_sampled e1 n (some s) = run_monte_carlo_sampled e2 n (some s) :=
  ⟨rfl, rfl, rfl, rfl, rfl, rfl⟩

/-- C7 counterexample: when the re-evaluation of the final point raises
(here: the model oracle raising `ZeroDivisionError`), the dict returned by
the `except` branch of `optimize_capital_structure` does NOT carry
constraint-violation magnitudes, refuting "the returned result object
always carries ... explicit constraint-violation magnitudes". -/
theorem opt_violations_missing_on_exception_cex :
    (optimize_capital_structure (runModelProbe true)
      (.ok { x := (4/5, 9/20, 1/10), success := true,
             message := "Optimization terminated successfully" })
      (15/100) (13/10)).constraint_violations = none := rfl

/-- C7 (amended): `optimize_capital_structure` never raises.  An exception
during a trial evaluation makes the objective evaluate to the penalty
`1e10` and both constraint functions to the infeasible `-1e10`; on the
normal path the result carries the optimizer's convergence flag and
status message together with constraint-violation magnitudes clamped at
zero; on the exception path it carries `convergence = false` and an error
message, but no constraint-violation magnitudes. -/
theorem opt_penalties_and_result_fields
    (runModel : ℚ × ℚ × ℚ → Except String ModelMetrics) (objective : String)
    (x : ℚ × ℚ × ℚ) (e : String) (min_irr min_dscr : ℚ) :
    (runModel x = .error e →
      objective_func objective runModel x = 10000000000 ∧
      constraint_min_irr runModel min_irr x = -10000000000 ∧
      constraint_min_dscr runModel min_dscr x = -10000000000) ∧
    (∀ res : MinimizeResult, ∀ m : ModelMetrics, runModel res.x = .ok m →
      (optimize_capital_structure runModel (.ok res) min_irr min_dscr).convergence
        = res.success ∧
      (optimize_capital_structure runModel (.ok res) min_irr min_dscr).message
        = res.message ∧
      (optimize_capital_structure runModel (.ok res) min_irr min_dscr).constraint_violations
        = some (max 0 (min_irr - m.equity_irr), max 0 (min_dscr - m.min_dscr)) ∧
      (∀ v w, (optimize_capital_structure runModel (.ok res) min_irr
          min_dscr).constraint_violations = some (v, w) → 0 ≤ v ∧ 0 ≤ w)) ∧
    (∀ e2 : String,
      (optimize_capital_structure runModel (.error e2) min_irr min_dscr).convergence
        = false ∧
      (optimize_capital_structure runModel (.error e2) min_irr min_dscr).message
        = "Optimization failed with error: " ++ e2 ∧
      (optimize_capital_structure runModel (.error e2) min_irr min_dscr).constraint_violations
        = none) := by
  refine ⟨fun h => ?_, fun res m h => ?_, fun e2 => ⟨rfl, rfl, rfl⟩⟩
  · refine ⟨?_, ?_, ?_⟩ <;> simp [objective_func, constraint_min_irr, constraint_min_dscr, h]
  · have hrw : optimize_capital_structure runModel (.ok res) min_irr min_dscr =
      { optimal_debt_ratio := some res.x.1
        optimal_usd_pct := some res.x.2.1
        optimal_dfi_pct := some res.x.2.2
        optimized_equity_irr := some m.equity_irr
        optimized_project_irr := some m.project_irr
        optimized_npv := some m.npv_12pct
        optimized_min_dscr := some m.min_dscr
        convergence := res.success
        message := res.message
        constraint_violations :=
          some (max 0 (min_irr - m.equity_irr), max 0 (min_dscr - m.min_dscr)) } := by
      simp [optimize_capital_structure, h]
    refine ⟨by rw [hrw], by rw [hrw], by rw [hrw], fun v w hvw => ?_⟩
    rw [hrw] at hvw
    simp only [Option.some.injEq, Prod.mk.injEq] at hvw
    exact ⟨hvw.1 ▸ le_max_left 0 _, hvw.2 ▸ le_max_left 0 _⟩

/-- C7 witness: the amended theorem observed at concrete inputs — a
raising trial evaluation yields the penalty objective; a successful run
with metrics beating both thresholds carries violations clamped to
`(0, 0)`; a raising `minimize` call yields a result without violations. -/
theorem opt_penalties_and_result_fields_witness :
    objective_func "equity_irr" (runModelProbe true) (0, 0, 0) = 10000000000 ∧
    (optimize_capital_structure (runModelProbe false)
      (.ok { x := (4/5, 9/20, 1/10), success := true, message := "ok" })
      (15/100) (13/10)).constraint_violations = some (0, 0) ∧
    (optimize_capital_structure (runModelProbe false)
      (.error "boom") (15/100) (13/10)).constraint_violations = none := by
  refine ⟨((opt_penalties_and_result_fields (runModelProbe true) "equity_irr"
      (0, 0, 0) "ZeroDivisionError" (15/100) (13/10)).1 rfl).1, ?_, ?_⟩
  · have h := ((opt_penalties_and_result_fields (runModelProbe false) "equity_irr"
      (0, 0, 0) "ZeroDivisionError" (15/100) (13/10)).2.1
      { x := (4/5, 9/20, 1/10), success := true, message := "ok" }
      { equity_irr := 1/5, project_irr := 18/100, npv_12pct := 30, min_dscr := 3/2 }
      rfl).2.2.1
    rw [h]
    norm_num
  · exact ((opt_penalties_and_result_fields (runModelProbe false) "equity_irr"
      (0, 0, 0) "ZeroDivisionError" (15/100) (13/10)).2.2 "boom").2.2

/-- C1: with the CSV-overridable capacity factor lowered to 1% (all other
parameters default), year-2 available cash flow after interest is
negative; the schedule's computed USD principal `min(usd_bal, 0.8 *
op_cf_avail)` is then negative — it is not floored at zero — and applying
it makes the outstanding USD balance increase from year 2 to year 3,
violating the claimed non-increase invariant. -/
theorem usd_balance_increases_without_principal_floor :
    (debtYear lowCFConfig 2).usd_prin < 0 ∧
    (debtStateAfter lowCFConfig 1).usd_bal < (debtStateAfter lowCFConfig 2).usd_bal := by
  constructor <;>
    norm_num [debtYear, debtStep, debtStateAfter, initialDebtState, sched_op_cf,
      compute_revenue, compute_sscl, compute_opex, compute_generation, compute_fx,
      compute_tariff_usd, compute_depreciation, lowCFConfig, defaultConfig,
      min_def, max_def]

/-- C2: with the horizon extended to 21 years while the economic life
stays 20 (both CSV-overridable), the `da` column built by
`build_full_model` assigns the constant `CAPEX_TOTAL / ECON_LIFE` to year
21 — beyond the economic life, where the claim requires zero — and its
horizon sum is `21/20 · CAPEX_TOTAL`, not the claimed `CAPEX_TOTAL`. -/
theorem depreciation_beyond_life_nonzero :
    (model_da_list horizon21Config).getD 20 0 = 14638/100/20 ∧
    (14638/100/20 : ℚ) ≠ 0 ∧
    (model_da_list horizon21Config).sum ≠ horizon21Config.capex_total := by
  refine ⟨?_, by norm_num, ?_⟩
  · norm_num [model_da_list, compute_depreciation, horizon21Config, defaultConfig,
      List.getD, List.replicate]
  · norm_num [model_da_list, compute_depreciation, horizon21Config, defaultConfig,
      List.sum_replicate, smul_eq_mul]
